import Mathlib

/-
Shallow embedding of `zaber_stage.py` (class `ZaberStage`), the motion-control
wrapper for a single-axis Zaber linear stage.

Modelling conventions:
* Python floats are modelled as rationals (`ℚ`); the operations involved
  (comparisons, `min`/`max`, reciprocals) are exact on `ℚ`.
* The vendor SDK handle (`self.axis` / `self.connection`) is opaque; whether a
  command is accepted by the controller is an explicit `accept : Bool`
  argument, and a command that raises is `accept = false`.  What each method
  passes to the SDK is returned as an `Option Command` (none when nothing was
  sent before the method returned).
* `self.port` can hold the sentinel string "auto", a concrete port name, or
  Python `None` (after a failed auto-detect); `PortVal` has one constructor
  for each.
* Cached state fields `_current_position`, `_current_velocity`, `_is_moving`,
  `_is_homed`, `_connected` and the configuration fields are gathered in
  `StageState`.  `hasAxis` models truthiness of `self.axis`.
-/

namespace ZaberSpec

/-- Value of `self.port`: the "auto" sentinel, a concrete port string, or
Python `None` (assigned when `_find_zaber_port` returns nothing). -/
inductive PortVal where
  | auto : PortVal
  | dev : String → PortVal
  | null : PortVal
deriving DecidableEq, Repr

/-- The `DeviceInfo` dataclass of `zaber_stage.py`. -/
structure DeviceInfo where
  port : String
  device_id : Int
  serial_number : String
  name : String
  firmware_version : String
  device_type : String
  axis_count : Int
deriving DecidableEq, Repr

/-- The mutable fields of a `ZaberStage` object: configuration
(`port`, `min_pos`/`max_pos`, `max_velocity`, `reading_interval`,
`device_info`) and cached status (`_connected`, `_current_position`,
`_current_velocity`, `_is_moving`, `_is_homed`).  `hasAxis` is the
truthiness of `self.axis`. -/
structure StageState where
  port : PortVal
  minPos : ℚ
  maxPos : ℚ
  maxVelocity : ℚ
  readingInterval : ℚ
  deviceInfo : Option DeviceInfo
  connected : Bool
  hasAxis : Bool
  currentPosition : ℚ
  currentVelocity : ℚ
  isMoving : Bool
  isHomed : Bool
deriving DecidableEq, Repr

/-- A command passed to the vendor SDK axis handle. -/
inductive Command where
  | home : Command
  | moveVelocity : ℚ → Command
  | moveAbsolute : ℚ → Command
  | stop : Command
deriving DecidableEq, Repr

/-- Line 254: `max(-self.max_velocity, min(velocity_mm_s, self.max_velocity))`. -/
def clampVel (M v : ℚ) : ℚ :=
  max (-M) (min v M)

/-- `ZaberStage.set_velocity` (lines 238-271).  Guard: returns `False` when
not connected, no axis, or not homed.  Otherwise clamps to
`[-max_velocity, max_velocity]`, zeroes the clamped value at the cached
position limits (min-limit branch first, then `elif` max-limit branch),
sends `move_velocity`, and on acceptance stores the sent value in
`_current_velocity` and returns `True`; a raising `move_velocity`
(`accept = false`) reaches the `except` branch: `False`, state untouched. -/
def set_velocity (s : StageState) (v : ℚ) (accept : Bool) :
    Bool × StageState × Option Command :=
  if s.connected && s.hasAxis && s.isHomed then
    let w0 := clampVel s.maxVelocity v
    let w :=
      if s.currentPosition ≤ s.minPos ∧ w0 < 0 then 0
      else if s.maxPos ≤ s.currentPosition ∧ 0 < w0 then 0
      else w0
    if accept then
      (true, { s with currentVelocity := w }, some (Command.moveVelocity w))
    else
      (false, s, some (Command.moveVelocity w))
  else
    (false, s, none)

/-- `ZaberStage.stop` (lines 273-289): requires connected and an axis
(homed state is not checked); sends `stop`; on acceptance zeroes
`_current_velocity` and returns `True`, otherwise the `except` branch
returns `False` with the state untouched. -/
def stop (s : StageState) (accept : Bool) :
    Bool × StageState × Option Command :=
  if s.connected && s.hasAxis then
    if accept then
      (true, { s with currentVelocity := 0 }, some Command.stop)
    else
      (false, s, some Command.stop)
  else
    (false, s, none)

/-- `ZaberStage.move_to` (lines 291-315): requires connected, an axis and
homed; clamps the target with `max(self.min_pos, min(position_mm,
self.max_pos))`; sends a non-blocking `move_absolute`; mutates no cached
field whether the command is accepted or raises. -/
def move_to (s : StageState) (t : ℚ) (accept : Bool) :
    Bool × StageState × Option Command :=
  if s.connected && s.hasAxis && s.isHomed then
    (accept, s, some (Command.moveAbsolute (max s.minPos (min t s.maxPos))))
  else
    (false, s, none)

/-- `ZaberStage.home` (lines 218-236): requires connected and an axis; sends
`home`; on acceptance optimistically sets `_is_homed = True` and returns
`True`; a raising `home` returns `False` with `_is_homed` untouched. -/
def home (s : StageState) (accept : Bool) :
    Bool × StageState × Option Command :=
  if s.connected && s.hasAxis then
    if accept then
      (true, { s with isHomed := true }, some Command.home)
    else
      (false, s, some Command.home)
  else
    (false, s, none)

/-- One iteration of `_read_position_loop` (lines 585-604).  `reading` is the
outcome of the `get_position` + `is_busy` pair: `some (pos, busy)` when both
reads return, `none` when either raises (the `except` branch logs and the
cache is untouched).  On success, under the lock, `_current_position` and
`_is_moving` are replaced and `_current_velocity` is zeroed when the read
busy flag is false.  Nothing happens when `self.axis` is falsy. -/
def pollCycle (s : StageState) (reading : Option (ℚ × Bool)) : StageState :=
  if s.hasAxis then
    match reading with
    | some (pos, busy) =>
        { s with
          currentPosition := pos
          isMoving := busy
          currentVelocity := if busy then s.currentVelocity else 0 }
    | none => s
  else s

/-- The polling loop run over a finite trace of read outcomes. -/
def pollLoop (s : StageState) (readings : List (Option (ℚ × Bool))) : StageState :=
  readings.foldl pollCycle s

/-- The `device_info` object inside a persisted JSON record.  Every field is
optional: `none` models an absent key, for which the lookup `info["..."]` in
`load_config` raises `KeyError`. -/
structure IdentityRecord where
  port : Option String
  device_id : Option Int
  serial_number : Option String
  name : Option String
  firmware_version : Option String
  device_type : Option String
  axis_count : Option Int
deriving DecidableEq, Repr

/-- A persisted configuration record (the JSON written by `save_config` /
read by `load_config`).  `none` models an absent key, handled by
`config.get(key, default)`; `device_info := none` also covers an explicit
JSON `null` (both are falsy at line 459).  The two timestamp fields of the
record are ignored by `load_config` and not modelled. -/
structure ConfigRecord where
  port : Option PortVal
  position_limits_mm : Option (ℚ × ℚ)
  max_velocity_mm_s : Option ℚ
  reading_rate_hz : Option ℚ
  device_info : Option IdentityRecord
deriving DecidableEq, Repr

/-- `DeviceInfo.to_dict` (line 56): every field of a stored identity is
written out, so the serialized record has all keys present. -/
def serializeIdentity (d : DeviceInfo) : IdentityRecord :=
  { port := some d.port
    device_id := some d.device_id
    serial_number := some d.serial_number
    name := some d.name
    firmware_version := some d.firmware_version
    device_type := some d.device_type
    axis_count := some d.axis_count }

/-- The identity reconstruction of `load_config` (lines 461-469): each field
is looked up with `info["..."]`; any missing key raises `KeyError`, modelled
as `none`. -/
def parseIdentity (i : IdentityRecord) : Option DeviceInfo :=
  match i.port, i.device_id, i.serial_number, i.name,
      i.firmware_version, i.device_type, i.axis_count with
  | some p, some d, some sn, some n, some fw, some dt, some ac =>
      some ⟨p, d, sn, n, fw, dt, ac⟩
  | _, _, _, _, _, _, _ => none

/-- `ZaberStage.save_config` (lines 401-432), restricted to the record it
writes (file I/O success is outside the model).  `reading_rate_hz` is stored
as `1.0 / self.reading_interval` (line 418), which raises
`ZeroDivisionError` (caught, `False` returned) when the interval is zero:
that failure is `none`. -/
def save_config (s : StageState) : Option ConfigRecord :=
  if s.readingInterval = 0 then none
  else
    some
      { port := some s.port
        position_limits_mm := some (s.minPos, s.maxPos)
        max_velocity_mm_s := some s.maxVelocity
        reading_rate_hz := some (1 / s.readingInterval)
        device_info := s.deviceInfo.map serializeIdentity }

/-- `ZaberStage.load_config` (lines 434-479) applied to an already-parsed
record (the `FileNotFoundError` / JSON-parse failures are outside this
model).  Fields are assigned sequentially exactly as in the source:
`port`, limits and `max_velocity` first (lines 451-454); then
`reading_interval = 1.0 / rate` (line 456), whose `ZeroDivisionError` at
rate 0 is caught by the broad `except` and yields `False` with the earlier
assignments already applied; there is no clamping of the rate here.  Then
the identity (lines 459-469): a missing key raises `KeyError`, again caught
at line 477, yielding `False` with `device_info` keeping its prior value. -/
def load_config (s : StageState) (c : ConfigRecord) : Bool × StageState :=
  let lims := c.position_limits_mm.getD (0, 100)
  let s1 : StageState :=
    { s with
      port := c.port.getD PortVal.auto
      minPos := lims.1
      maxPos := lims.2
      maxVelocity := c.max_velocity_mm_s.getD 10 }
  let rate := c.reading_rate_hz.getD 100
  if rate = 0 then (false, s1)
  else
    let s2 : StageState := { s1 with readingInterval := 1 / rate }
    match c.device_info with
    | none => (true, s2)
    | some info =>
        match parseIdentity info with
        | some d => (true, { s2 with deviceInfo := some d })
        | none => (false, s2)

/-- The `reading_interval` computed by `__init__` (line 102):
`1.0 / min(reading_rate_hz, 100.0)`; `none` models the `ZeroDivisionError`
raised (uncaught) when the minimum is zero. -/
def readingIntervalOfRate (rate : ℚ) : Option ℚ :=
  if min rate 100 = 0 then none else some (1 / min rate 100)

/-- A `ZaberStage` as built by `__init__` with the default arguments
(`port="auto"`, limits `(0.0, 100.0)`, `max_velocity_mm_s=10.0`,
`reading_rate_hz=100.0`), before any connection, and with no configuration
file on disk. -/
def freshStage : StageState :=
  { port := PortVal.auto
    minPos := 0
    maxPos := 100
    maxVelocity := 10
    readingInterval := 1 / 100
    deviceInfo := none
    connected := false
    hasAxis := false
    currentPosition := 0
    currentVelocity := 0
    isMoving := false
    isHomed := false }

/-- Observable interactions with the outside world performed by
`ZaberStage.connect` (lines 136-197), in program order. -/
inductive ConnAction where
  | scanPorts : ConnAction
  | findPort : ConnAction
  | openPort : PortVal → ConnAction
  | detectDevices : ConnAction
  | readIdentity : ConnAction
  | saveConfigFile : ConnAction
  | readIsHomed : ConnAction
  | readPosition : ConnAction
  | startPolling : ConnAction
deriving DecidableEq, Repr

/-- The environment's responses to the external calls of `connect`:
`scanned` is the result of `scan_devices()`, `foundPort` of
`_find_zaber_port()`, `openOk` whether `Connection.open_serial_port`
returns, `detectOk` whether `detect_devices` returns a non-empty list
(a raising detect and an empty list both end `connect` with `False` and are
merged here), `identity` what `_get_device_info` yields (it never raises:
it falls back to a mock record), `homedRead` the outcome of
`axis.is_homed()` (`none` = raise), `posRead` the outcome of
`axis.get_position()` (`none` = raise, handled by the inner `except` that
assigns position 0.0). -/
structure ConnectEnv where
  scanned : List DeviceInfo
  foundPort : Option String
  openOk : Bool
  detectOk : Bool
  identity : DeviceInfo
  homedRead : Option Bool
  posRead : Option ℚ
deriving DecidableEq, Repr

/-- Tail of `connect` from line 181: `self._is_homed = self.axis.is_homed()`
(a raise lands in the outer `except`: `False`, with the mutations so far
kept), then the guarded initial position read (line 184-187, defaulting to
0.0), then `_connected = True` and `_start_position_reading()`. -/
def connectFinish (s : StageState) (env : ConnectEnv) (acts : List ConnAction) :
    Bool × StageState × List ConnAction :=
  match env.homedRead with
  | none => (false, s, acts ++ [ConnAction.readIsHomed])
  | some h =>
      (true,
        { s with
          isHomed := h
          currentPosition := env.posRead.getD 0
          connected := true },
        acts ++ [ConnAction.readIsHomed, ConnAction.readPosition,
          ConnAction.startPolling])

/-- Lines 172-175 of `connect`: when `self.device_info` is falsy, read the
identity from the device and persist the configuration. -/
def connectIdentity (s : StageState) (env : ConnectEnv) (acts : List ConnAction) :
    Bool × StageState × List ConnAction :=
  if s.deviceInfo.isNone then
    connectFinish { s with deviceInfo := some env.identity } env
      (acts ++ [ConnAction.readIdentity, ConnAction.saveConfigFile])
  else
    connectFinish s env acts

/-- Lines 160-169 of `connect`: open the serial port at `self.port`
(a raise lands in the outer `except`: `False`), detect devices (raise or
empty list: `False`), then bind `self.device` / `self.axis`. -/
def connectOpened (s : StageState) (env : ConnectEnv) (acts : List ConnAction) :
    Bool × StageState × List ConnAction :=
  if !env.openOk then
    (false, s, acts ++ [ConnAction.openPort s.port])
  else if !env.detectOk then
    (false, s, acts ++ [ConnAction.openPort s.port, ConnAction.detectDevices])
  else
    connectIdentity { s with hasAxis := true } env
      (acts ++ [ConnAction.openPort s.port, ConnAction.detectDevices])

/-- `ZaberStage.connect` (lines 136-197).  There is no already-connected
guard: the body runs in full regardless of `self._connected`.  When
`self.port == "auto"` the saved-device scan runs first (lines 145-157),
assigning `self.port` and `self.device_info` from the first hit, else
falling back to `_find_zaber_port()`; if that returns `None`, `self.port`
is left as `None` and `connect` returns `False`.  Opening a `null` port
always raises in Python, modelled by instantiating `env.openOk = false`
there. -/
def connect (s : StageState) (env : ConnectEnv) :
    Bool × StageState × List ConnAction :=
  match s.port with
  | PortVal.auto =>
      match env.scanned with
      | d :: _ =>
          connectOpened
            { s with port := PortVal.dev d.port, deviceInfo := some d } env
            [ConnAction.scanPorts]
      | [] =>
          match env.foundPort with
          | some p =>
              connectOpened { s with port := PortVal.dev p } env
                [ConnAction.scanPorts, ConnAction.findPort]
          | none =>
              (false, { s with port := PortVal.null },
                [ConnAction.scanPorts, ConnAction.findPort])
  | _ => connectOpened s env []

/-- The clamp used by `move_to` (line 306):
`max(self.min_pos, min(position_mm, self.max_pos))`. -/
def clampPos (lo hi x : ℚ) : ℚ :=
  max lo (min x hi)

/-- A concrete identity for witnesses. -/
def exampleDevice : DeviceInfo :=
  { port := "COM3"
    device_id := 1
    serial_number := "49290"
    name := "X-LSM100A"
    firmware_version := "7.14"
    device_type := "Linear"
    axis_count := 1 }

/-- A connected, homed stage with the default limits `(0, 100)` and maximum
velocity `10`, cached at position `50`. -/
def exampleHomed : StageState :=
  { port := PortVal.dev "COM3"
    minPos := 0
    maxPos := 100
    maxVelocity := 10
    readingInterval := 1 / 100
    deviceInfo := some exampleDevice
    connected := true
    hasAxis := true
    currentPosition := 50
    currentVelocity := 0
    isMoving := false
    isHomed := true }

/-- The same stage before homing. -/
def exampleUnhomed : StageState :=
  { exampleHomed with isHomed := false }

/-- The same stage cached at the upper position limit. -/
def exampleAtMax : StageState :=
  { exampleHomed with currentPosition := 100 }

/-- The record `save_config` writes for `exampleHomed`. -/
def exampleSavedRecord : ConfigRecord :=
  { port := some (PortVal.dev "COM3")
    position_limits_mm := some (0, 100)
    max_velocity_mm_s := some 10
    reading_rate_hz := some 100
    device_info := some (serializeIdentity exampleDevice) }

/-- A persisted record requesting a 200 Hz reading rate. -/
def over100Record : ConfigRecord :=
  { port := none
    position_limits_mm := none
    max_velocity_mm_s := none
    reading_rate_hz := some 200
    device_info := none }

/-- A persisted record requesting a 50 Hz reading rate. -/
def rate50Record : ConfigRecord :=
  { port := none
    position_limits_mm := none
    max_velocity_mm_s := none
    reading_rate_hz := some 50
    device_info := none }

/-- A persisted identity object with the `device_id` key missing. -/
def badIdentityRecord : IdentityRecord :=
  { port := some "COM3"
    device_id := none
    serial_number := some "49290"
    name := some "X-LSM100A"
    firmware_version := some "7.14"
    device_type := some "Linear"
    axis_count := some 1 }

/-- A persisted record whose identity object is missing a required field. -/
def badConfigRecord : ConfigRecord :=
  { port := some (PortVal.dev "COM3")
    position_limits_mm := some (0, 50)
    max_velocity_mm_s := some 5
    reading_rate_hz := some 50
    device_info := some badIdentityRecord }

/-- A benign environment for `connect`: open, detect and both status reads
succeed; nothing is scanned (not needed for a concrete port). -/
def exampleEnv : ConnectEnv :=
  { scanned := []
    foundPort := none
    openOk := true
    detectOk := true
    identity := exampleDevice
    homedRead := some true
    posRead := some 5 }

/-- C1: on a connected, homed stage with positive maximum velocity `M`,
`set_velocity v` passes to the controller exactly
`w = clamp v [-M, M]`, except that `w = 0` when the cached position is at or
beyond the max limit and the clamped value is positive, and `w = 0` when the
cached position is at or below the min limit and the clamped value is
negative; and when `v` lies outside `[-M, M]` the raw `v` is never what is
sent. -/
theorem set_velocity_sends_clamped (s : StageState) (v : ℚ) (a : Bool)
    (hc : s.connected = true) (hx : s.hasAxis = true) (hh : s.isHomed = true)
    (hM : 0 < s.maxVelocity) :
    (set_velocity s v a).2.2 =
      some (Command.moveVelocity
        (if (s.maxPos ≤ s.currentPosition ∧ 0 < clampVel s.maxVelocity v) ∨
            (s.currentPosition ≤ s.minPos ∧ clampVel s.maxVelocity v < 0)
          then 0 else clampVel s.maxVelocity v)) ∧
    ((v < -s.maxVelocity ∨ s.maxVelocity < v) →
      (set_velocity s v a).2.2 ≠ some (Command.moveVelocity v)) := by
  have hsent : (set_velocity s v a).2.2 =
      some (Command.moveVelocity
        (if s.currentPosition ≤ s.minPos ∧ clampVel s.maxVelocity v < 0 then 0
         else if s.maxPos ≤ s.currentPosition ∧ 0 < clampVel s.maxVelocity v then 0
         else clampVel s.maxVelocity v)) := by
    cases a <;> simp [set_velocity, hc, hx, hh]
  constructor
  · rw [hsent]
    congr 2
    split_ifs <;> tauto
  · intro hv hEq
    rw [hsent] at hEq
    have hwv : (if s.currentPosition ≤ s.minPos ∧ clampVel s.maxVelocity v < 0 then 0
        else if s.maxPos ≤ s.currentPosition ∧ 0 < clampVel s.maxVelocity v then 0
        else clampVel s.maxVelocity v) = v := by
      simpa using hEq
    rcases hv with hv | hv
    · have hclamp : clampVel s.maxVelocity v = -s.maxVelocity := by
        unfold clampVel
        rw [min_eq_left (by linarith), max_eq_left (by linarith)]
      rw [hclamp] at hwv
      split_ifs at hwv <;> linarith
    · have hclamp : clampVel s.maxVelocity v = s.maxVelocity := by
        unfold clampVel
        rw [min_eq_right (le_of_lt hv), max_eq_right (by linarith)]
      rw [hclamp] at hwv
      split_ifs at hwv <;> linarith

/-- C1 witness: on the connected, homed example stage (limits `(0, 100)`,
max velocity `10`, cached position `50`), `set_velocity 25` sends `10`, not
the raw `25`. -/
theorem set_velocity_sends_clamped_witness :
    0 < exampleHomed.maxVelocity ∧
    (set_velocity exampleHomed 25 true).2.2 = some (Command.moveVelocity 10) ∧
    (set_velocity exampleHomed 25 true).2.2 ≠ some (Command.moveVelocity 25) ∧
    (set_velocity exampleAtMax 5 true).2.2 = some (Command.moveVelocity 0) := by
  have h := set_velocity_sends_clamped exampleHomed 25 true rfl rfl rfl
    (by norm_num [exampleHomed])
  have hmax := set_velocity_sends_clamped exampleAtMax 5 true rfl rfl rfl
    (by norm_num [exampleAtMax, exampleHomed])
  refine ⟨by norm_num [exampleHomed], ?_,
    h.2 (Or.inr (by norm_num [exampleHomed])), ?_⟩
  · rw [h.1]
    norm_num [exampleHomed, clampVel]
  · rw [hmax.1]
    norm_num [exampleAtMax, exampleHomed, clampVel]

/-- C2: on a connected, homed stage with well-ordered limits, `move_to t`
passes to the controller exactly `clamp t [min_pos, max_pos]`, a value
always inside the limits; when `t` exceeds the max limit the sent value is
the max limit itself. -/
theorem move_to_sends_clamped (s : StageState) (t : ℚ) (a : Bool)
    (hc : s.connected = true) (hx : s.hasAxis = true) (hh : s.isHomed = true)
    (hlim : s.minPos ≤ s.maxPos) :
    (move_to s t a).2.2 =
      some (Command.moveAbsolute (clampPos s.minPos s.maxPos t)) ∧
    s.minPos ≤ clampPos s.minPos s.maxPos t ∧
    clampPos s.minPos s.maxPos t ≤ s.maxPos ∧
    (s.maxPos < t → clampPos s.minPos s.maxPos t = s.maxPos) := by
  refine ⟨?_, le_max_left _ _, max_le hlim (min_le_right _ _), fun ht => ?_⟩
  · simp [move_to, hc, hx, hh, clampPos]
  · unfold clampPos
    rw [min_eq_right (le_of_lt ht), max_eq_right hlim]

/-- C2 witness: with limits `(0, 100)`, `move_to 150` makes the controller
receive `100`, never `150`. -/
theorem move_to_sends_clamped_witness :
    exampleHomed.minPos = 0 ∧ exampleHomed.maxPos = 100 ∧
    (move_to exampleHomed 150 true).2.2 = some (Command.moveAbsolute 100) ∧
    (move_to exampleHomed 150 true).2.2 ≠ some (Command.moveAbsolute 150) := by
  have h := move_to_sends_clamped exampleHomed 150 true rfl rfl rfl
    (by norm_num [exampleHomed])
  have h100 : clampPos exampleHomed.minPos exampleHomed.maxPos 150 = 100 := by
    norm_num [clampPos, exampleHomed]
  refine ⟨rfl, rfl, ?_, ?_⟩
  · rw [h.1, h100]
  · rw [h.1, h100]
    simp

/-- C10: a `move_to` call, whether it succeeds, is rejected, or is refused
by the connected/homed guard, mutates no cached status field: the resulting
`StageState` (hence position, velocity, `is_moving` and `is_homed`) is
exactly the one before the call; only the polling loop updates the cache
afterwards. -/
theorem move_to_preserves_cache (s : StageState) (t : ℚ) (a : Bool) :
    (move_to s t a).2.1 = s := by
  unfold move_to
  split <;> rfl

/-- C6: for each of `home`, `set_velocity`, `move_to` and `stop`, when the
underlying controller command is rejected (the SDK call raises,
`accept = false`), the call returns `false` and the whole cached state —
in particular position, velocity, `is_moving` and `is_homed` — is exactly
what it was before the call. -/
theorem rejected_command_preserves_cache (s : StageState) (v t : ℚ) :
    ((home s false).1 = false ∧ (home s false).2.1 = s) ∧
    ((set_velocity s v false).1 = false ∧ (set_velocity s v false).2.1 = s) ∧
    ((move_to s t false).1 = false ∧ (move_to s t false).2.1 = s) ∧
    ((stop s false).1 = false ∧ (stop s false).2.1 = s) := by
  unfold home set_velocity move_to stop
  refine ⟨⟨?_, ?_⟩, ⟨?_, ?_⟩, ⟨?_, ?_⟩, ⟨?_, ?_⟩⟩ <;> (split <;> simp)

/-- C3: on a connected but not homed stage, `set_velocity` and `move_to`
return `false` for every argument, leave the state untouched, and send
nothing to the controller; `stop` ignores the homed flag: on a connected
stage with an axis bound it returns `true` whenever the controller accepts
the stop command. -/
theorem not_homed_blocks_motion (s : StageState)
    (hc : s.connected = true) (hh : s.isHomed = false) :
    (∀ v a, set_velocity s v a = (false, s, none)) ∧
    (∀ t a, move_to s t a = (false, s, none)) ∧
    (s.hasAxis = true → (stop s true).1 = true) := by
  refine ⟨fun v a => ?_, fun t a => ?_, fun hx => ?_⟩
  · simp [set_velocity, hh]
  · simp [move_to, hh]
  · simp [stop, hc, hx]

/-- C7: a polling iteration with a successful read replaces the cached
position and `is_moving` with the values read and zeroes the cached
velocity exactly when the read busy flag is false (all other fields kept);
an iteration with a failed read leaves the whole cached state unchanged,
and the loop simply continues with the remaining iterations. -/
theorem poll_cycle_contract (s : StageState) (ha : s.hasAxis = true)
    (p : ℚ) (m : Bool) :
    pollCycle s (some (p, m)) =
      { s with
        currentPosition := p
        isMoving := m
        currentVelocity := if m then s.currentVelocity else 0 } ∧
    pollCycle s none = s ∧
    (∀ reads, pollLoop s (none :: reads) = pollLoop s reads) := by
  have h0 : pollCycle s none = s := by
    unfold pollCycle
    split <;> rfl
  refine ⟨?_, h0, fun reads => ?_⟩
  · simp [pollCycle, ha]
  · simp [pollLoop, h0]

/-- C7 witness: on the example stage (cached velocity `0`, position `50`), a
read of `(42, not busy)` updates position to `42`, marks not moving and
zeroes the velocity, while a failed read changes nothing. -/
theorem poll_cycle_contract_witness :
    exampleHomed.hasAxis = true ∧
    pollCycle exampleHomed (some (42, false)) =
      { exampleHomed with
        currentPosition := 42
        isMoving := false
        currentVelocity := 0 } ∧
    pollCycle exampleHomed none = exampleHomed := by
  have h := poll_cycle_contract exampleHomed rfl 42 false
  refine ⟨rfl, ?_, h.2.1⟩
  simpa using h.1

/-- C8: saving a configuration whose polling interval is non-zero and
loading the saved record into a fresh stage succeeds and restores the same
endpoint, the same position limits, the same maximum velocity, and a
reading rate within `1e-6` of the saved one (it is in fact exact over exact
arithmetic, the rate passing through the reciprocal interval). -/
theorem config_round_trip (s : StageState) (rec : ConfigRecord)
    (h : s.readingInterval ≠ 0) (hsave : save_config s = some rec) :
    (load_config freshStage rec).1 = true ∧
    (load_config freshStage rec).2.port = s.port ∧
    (load_config freshStage rec).2.minPos = s.minPos ∧
    (load_config freshStage rec).2.maxPos = s.maxPos ∧
    (load_config freshStage rec).2.maxVelocity = s.maxVelocity ∧
    |1 / (load_config freshStage rec).2.readingInterval -
        rec.reading_rate_hz.getD 100| ≤ 1 / 1000000 := by
  rw [save_config, if_neg h] at hsave
  obtain rfl := Option.some.inj hsave
  have h1 : (1 : ℚ) / s.readingInterval ≠ 0 := one_div_ne_zero h
  rcases hd : s.deviceInfo with _ | d <;>
    simp [load_config, hd, h, h1, parseIdentity, serializeIdentity,
      one_div_one_div, sub_self]

/-- C8 witness: round-tripping the example stage's configuration through a
saved record and a fresh stage restores limits `(0, 100)`, max velocity
`10`, port and an exact `100` Hz rate. -/
theorem config_round_trip_witness :
    exampleHomed.readingInterval ≠ 0 ∧
    save_config exampleHomed = some exampleSavedRecord ∧
    (load_config freshStage exampleSavedRecord).1 = true ∧
    (load_config freshStage exampleSavedRecord).2.port = PortVal.dev "COM3" ∧
    (load_config freshStage exampleSavedRecord).2.maxVelocity = 10 ∧
    |1 / (load_config freshStage exampleSavedRecord).2.readingInterval -
        exampleSavedRecord.reading_rate_hz.getD 100| ≤ 1 / 1000000 := by
  have hne : exampleHomed.readingInterval ≠ 0 := by norm_num [exampleHomed]
  have hsave : save_config exampleHomed = some exampleSavedRecord := by
    rw [save_config, if_neg hne]
    norm_num [exampleHomed, exampleSavedRecord, serializeIdentity, exampleDevice]
  have h := config_round_trip exampleHomed exampleSavedRecord hne hsave
  exact ⟨hne, hsave, h.1, h.2.1, h.2.2.2.2.1.trans rfl, h.2.2.2.2.2⟩

/-- C4 counterexample: loading a persisted record with `reading_rate_hz`
equal to `200` succeeds and leaves `reading_interval = 1/200 < 0.01`
(`load_config` never clamps the rate), and construction with requested rate
`-10` yields `reading_interval = -1/10 < 0.01` (the `min` clamp bounds the
rate only from above). -/
theorem reading_interval_bound_cex :
    ((load_config freshStage over100Record).1 = true ∧
      (load_config freshStage over100Record).2.readingInterval < 1 / 100) ∧
    (readingIntervalOfRate (-10) = some (-(1 / 10)) ∧
      (-(1 / 10) : ℚ) < 1 / 100) := by
  refine ⟨⟨?_, ?_⟩, ?_, by norm_num⟩
  · norm_num [load_config, over100Record]
  · norm_num [load_config, over100Record]
  · rw [readingIntervalOfRate, if_neg (by norm_num)]
    norm_num

/-- C4 amended: construction clamps the requested rate only from above, so
the period bound `reading_interval ≥ 0.01` holds after construction for
every positive requested rate; after a successful `load_config` the
interval is exactly the reciprocal of the persisted rate (no clamping), so
the bound holds exactly when that rate lies in `(0, 100]` — in particular
for every record produced by `save_config` of a stage built with a positive
requested rate, but not for arbitrary persisted records. -/
theorem reading_interval_bound_amended :
    (∀ rate i, 0 < rate → readingIntervalOfRate rate = some i →
      1 / 100 ≤ i) ∧
    (∀ s c s', load_config s c = (true, s') →
      s'.readingInterval = 1 / c.reading_rate_hz.getD 100 ∧
      (1 / 100 ≤ s'.readingInterval ↔
        0 < c.reading_rate_hz.getD 100 ∧ c.reading_rate_hz.getD 100 ≤ 100)) := by
  constructor
  · intro rate i hr hi
    have hmin : 0 < min rate 100 := lt_min hr (by norm_num)
    rw [readingIntervalOfRate, if_neg (ne_of_gt hmin)] at hi
    obtain rfl := Option.some.inj hi
    exact one_div_le_one_div_of_le hmin (min_le_right _ _)
  · intro s c s' hload
    simp only [load_config] at hload
    split at hload
    · exact absurd hload (by simp)
    · rename_i hr
      have hint : s'.readingInterval = 1 / c.reading_rate_hz.getD 100 := by
        rcases hd : c.device_info with _ | info <;> simp only [hd] at hload
        · injection hload with h1 h2
          rw [← h2]
        · rcases hp : parseIdentity info with _ | d <;> simp only [hp] at hload
          · simp at hload
          · injection hload with h1 h2
            rw [← h2]
      refine ⟨hint, ?_⟩
      rw [hint]
      constructor
      · intro hle
        have hpos : 0 < c.reading_rate_hz.getD 100 := by
          rcases lt_trichotomy (c.reading_rate_hz.getD 100) 0 with hneg | h0 | hpos
          · have : 1 / c.reading_rate_hz.getD 100 < 0 :=
              div_neg_of_pos_of_neg one_pos hneg
            linarith
          · exact absurd h0 hr
          · exact hpos
        refine ⟨hpos, ?_⟩
        rw [div_le_div_iff₀ (by norm_num) hpos] at hle
        linarith
      · rintro ⟨hpos, hle⟩
        exact one_div_le_one_div_of_le hpos hle

/-- C4 amended witness: a requested construction rate of `50` yields the
interval `1/50 ≥ 0.01`, and loading a persisted record with rate `50`
succeeds with an interval meeting the bound. -/
theorem reading_interval_bound_amended_witness :
    (0 : ℚ) < 50 ∧ readingIntervalOfRate 50 = some (1 / 50) ∧
    (1 : ℚ) / 100 ≤ 1 / 50 ∧
    (load_config freshStage rate50Record).1 = true ∧
    1 / 100 ≤ (load_config freshStage rate50Record).2.readingInterval := by
  have h50 : readingIntervalOfRate 50 = some (1 / 50) := by
    rw [readingIntervalOfRate, if_neg (by norm_num)]
    norm_num
  have hb := reading_interval_bound_amended.1 50 (1 / 50) (by norm_num) h50
  have hpair : load_config freshStage rate50Record =
      (true, (load_config freshStage rate50Record).2) := by
    norm_num [load_config, rate50Record]
  have h2 := (reading_interval_bound_amended.2 freshStage rate50Record
      (load_config freshStage rate50Record).2 hpair).2.mpr
    (by norm_num [rate50Record])
  exact ⟨by norm_num, h50, hb, by rw [hpair], h2⟩

/-- C3 witness: on the concrete connected, unhomed stage, `set_velocity 5`
and `move_to 20` are refused with nothing sent, while `stop` succeeds. -/
theorem not_homed_blocks_motion_witness :
    exampleUnhomed.connected = true ∧ exampleUnhomed.isHomed = false ∧
    set_velocity exampleUnhomed 5 true = (false, exampleUnhomed, none) ∧
    move_to exampleUnhomed 20 true = (false, exampleUnhomed, none) ∧
    (stop exampleUnhomed true).1 = true := by
  have h := not_homed_blocks_motion exampleUnhomed rfl rfl
  exact ⟨rfl, rfl, h.1 5 true, h.2.1 20 true, h.2.2 rfl⟩

/-- C9 counterexample: loading a persisted record whose identity object is
missing the `device_id` key does not report success — the `KeyError` is
caught by the broad `except` and `load_config` returns `False`. -/
theorem load_config_partial_identity_cex :
    (load_config freshStage badConfigRecord).1 = false := by
  norm_num [load_config, badConfigRecord, parseIdentity, badIdentityRecord]

/-- C9 amended: when a persisted record's identity object is missing a
required field, `load_config` returns failure (not success); by the time
the `KeyError` fires, the non-identity settings (endpoint, limits, max
velocity, polling interval) have already been applied, and the cached
identity keeps its prior value (it is not replaced and not cleared). -/
theorem load_config_partial_identity_fails (s : StageState) (c : ConfigRecord)
    (info : IdentityRecord) (hd : c.device_info = some info)
    (hp : parseIdentity info = none) (hr : c.reading_rate_hz.getD 100 ≠ 0) :
    (load_config s c).1 = false ∧
    (load_config s c).2.deviceInfo = s.deviceInfo ∧
    (load_config s c).2.port = c.port.getD PortVal.auto ∧
    (load_config s c).2.minPos = (c.position_limits_mm.getD (0, 100)).1 ∧
    (load_config s c).2.maxPos = (c.position_limits_mm.getD (0, 100)).2 ∧
    (load_config s c).2.maxVelocity = c.max_velocity_mm_s.getD 10 ∧
    (load_config s c).2.readingInterval = 1 / c.reading_rate_hz.getD 100 := by
  simp [load_config, hd, hp, hr]

/-- C9 amended witness: on the concrete record with a `device_id`-less
identity, the load fails, the fresh stage's identity stays absent, and the
other settings have been applied (max velocity `5`, limits `(0, 50)`). -/
theorem load_config_partial_identity_fails_witness :
    badConfigRecord.device_info = some badIdentityRecord ∧
    parseIdentity badIdentityRecord = none ∧
    (load_config freshStage badConfigRecord).1 = false ∧
    (load_config freshStage badConfigRecord).2.deviceInfo = none ∧
    (load_config freshStage badConfigRecord).2.maxVelocity = 5 ∧
    (load_config freshStage badConfigRecord).2.minPos = 0 ∧
    (load_config freshStage badConfigRecord).2.maxPos = 50 := by
  have h := load_config_partial_identity_fails freshStage badConfigRecord
    badIdentityRecord rfl rfl (by norm_num [badConfigRecord])
  exact ⟨rfl, rfl, h.1, h.2.1.trans rfl, h.2.2.2.2.2.1.trans rfl,
    h.2.2.2.1.trans rfl, h.2.2.2.2.1.trans rfl⟩

/-- C5 counterexample: calling `connect` on the already-connected example
stage (concrete port, benign environment) returns success, but only after
reopening the serial port — the open action is issued again because
`connect` has no already-connected guard. -/
theorem connect_not_idempotent_cex :
    exampleHomed.connected = true ∧
    (connect exampleHomed exampleEnv).1 = true ∧
    ConnAction.openPort (PortVal.dev "COM3") ∈
      (connect exampleHomed exampleEnv).2.2 := by
  refine ⟨rfl, ?_, ?_⟩ <;>
    simp [connect, connectOpened, connectIdentity, connectFinish,
      exampleHomed, exampleEnv, exampleDevice]

/-- C5 amended: `connect` is not guarded by an already-connected check.
Whatever the current `_connected` flag, when the port is concrete and the
open, detect and homed reads succeed, `connect` reopens the serial port
(the open action is issued), overwrites the cached homed flag with the
fresh read, marks the stage connected, and returns success. -/
theorem connect_runs_full_sequence (s : StageState) (env : ConnectEnv)
    (p : String) (b : Bool) (hp : s.port = PortVal.dev p)
    (ho : env.openOk = true) (hd : env.detectOk = true)
    (hh : env.homedRead = some b) :
    (connect s env).1 = true ∧
    ConnAction.openPort (PortVal.dev p) ∈ (connect s env).2.2 ∧
    (connect s env).2.1.isHomed = b ∧
    (connect s env).2.1.connected = true := by
  have hcon : connect s env = connectOpened s env [] := by
    unfold connect
    rw [hp]
  rw [hcon]
  by_cases hq : s.deviceInfo.isNone <;>
    simp [connectOpened, connectIdentity, connectFinish, hp, ho, hd, hh, hq]

/-- C5 amended witness: on the connected example stage with its concrete
port, `connect` succeeds, the port is reopened, and the homed flag holds
the value just re-read. -/
theorem connect_runs_full_sequence_witness :
    exampleHomed.connected = true ∧
    exampleHomed.port = PortVal.dev "COM3" ∧
    (connect exampleHomed exampleEnv).1 = true ∧
    ConnAction.openPort (PortVal.dev "COM3") ∈
      (connect exampleHomed exampleEnv).2.2 ∧
    (connect exampleHomed exampleEnv).2.1.isHomed = true ∧
    (connect exampleHomed exampleEnv).2.1.connected = true := by
  have h := connect_runs_full_sequence exampleHomed exampleEnv "COM3" true
    rfl rfl rfl rfl
  exact ⟨rfl, rfl, h.1, h.2.1, h.2.2.1, h.2.2.2⟩

end ZaberSpec
